import Mathlib

/-!
Shallow embedding of the reinforcement-calculation engine in `src/main.py`
(classes `Element`, `Plate`, `Beam`, `Column`, `Foot`) together with the
material tables of `src/materialProperties/properties.py`.

Modelling conventions:
* Python floats are idealised as rationals (`ℚ`); `math.pi` is embedded as
  the exact rational value of the IEEE-754 double `math.pi` (`pyPi`).
* `math.sqrt` and the float power operator `**` with non-integral exponents
  have no exact rational counterpart; every function that uses them takes an
  oracle (`rsqrt : ℚ → ℚ`, `rpow : ℚ → ℚ → ℚ`) standing for the float
  routine.  None of the verified claims depends on the oracle's values.
* Fallible code is embedded in `Except PyErr`: `PyErr.typeError` models a
  Python `TypeError` (`list.append(*xs)` with `xs` of length ≠ 1,
  `None * float`, `round(None, 2)`), `PyErr.nameError` models a `NameError`
  (reading a local name that was never bound on the executed path).
* The external jsonschema validation (`Element.validate_data`) happens
  outside the engine; its outcome is carried as the `valid : Bool` field of
  each input record, exactly as `self.valid` is consumed by the code.
-/

namespace ReinfCalc

/-- Exact rational value of the IEEE-754 double `math.pi` used by Python. -/
def pyPi : ℚ := 884279719003555 / 281474976710656

/-- Python exceptions that the embedded code can raise. -/
inductive PyErr where
  | typeError : PyErr
  | nameError : PyErr
  deriving DecidableEq, Repr

/-- Square-root oracle used in closed statements; the facts stated with it
never depend on the oracle's values. -/
def sq0 : ℚ → ℚ := fun _ => 0

/-- Float-power oracle used in closed statements; the facts stated with it
never depend on the oracle's values. -/
def pw0 : ℚ → ℚ → ℚ := fun _ _ => 0

/-- Model of Python `round(x, 2)`.  (Python rounds exact half-cent ties to
even; that corner case is immaterial to every claim below, no claim depends
on the rounded value.) -/
def round2 (q : ℚ) : ℚ := (⌊q * 100 + 1 / 2⌋ : ℚ) / 100

/-- One row of `properties.ExpClass`: the exposure-class name, the
recommended minimum concrete class (name and its leading strength number,
i.e. Python's `int(concrete_class[1:3])`), and the S1..S6 minimum durability
covers in mm (`none` models the table's `None`). -/
structure ExpoProps where
  name : String
  recName : String
  recNum : ℤ
  sCover : ℤ → Option ℚ

/-- `ExpClass.X0` from `properties.py`. -/
def expX0 : ExpoProps where
  name := "X0"
  recName := "C12/15"
  recNum := 12
  sCover := fun i =>
    if i = 1 then some 10 else if i = 2 then some 10 else if i = 3 then some 10
    else if i = 4 then some 10 else if i = 5 then some 15 else if i = 6 then some 20
    else none

/-- `ExpClass.XC2` from `properties.py`. -/
def expXC2 : ExpoProps where
  name := "XC2"
  recName := "C25/30"
  recNum := 25
  sCover := fun i =>
    if i = 1 then some 10 else if i = 2 then some 15 else if i = 3 then some 20
    else if i = 4 then some 25 else if i = 5 then some 30 else if i = 6 then some 35
    else none

/-- `Element.get_nominal_cover` (main.py lines 162-214).  `code` is the
element code (`'p'`, `'b'`, `'c'`, `'f'`), `concNum` is
`int(concrete_class[1:3])`, `barDiamMM` is `int(bar_diam_combo)` and
`declaredCover` the raw `concr_cover_lineEdit` value.  Returns the
recommended nominal cover in m (or `none`) and the remark list. -/
def get_nominal_cover (code : Char) (expo : ExpoProps) (concNum : ℤ)
    (barDiamMM declaredCover : ℚ) : Option ℚ × List String :=
  let remarks0 : List String :=
    if concNum < expo.recNum then
      ["For exposure class " ++ expo.name ++
        " the minimum recommended concrete class is " ++ expo.recName]
    else []
  let list1 : List String := ["X0", "XC1", "XC2", "XC3", "XD3", "XS2", "XS3"]
  let list2 : List String := ["XC4", "XD1", "XD2", "XS1"]
  let sc1 : ℤ :=
    if list1.contains expo.name then (if 30 ≤ concNum then 3 else 4)
    else if list2.contains expo.name then (if 40 ≤ concNum then 3 else 4)
    else 4
  let sc : ℤ := if code = 'p' then sc1 - 1 else sc1
  match expo.sCover sc with
  | none =>
      (none, remarks0 ++
        ["Not able to calculate nominal cover for exposure class " ++ expo.name ++ "."])
  | some c_min_dur =>
      let c_min : ℚ := if code = 'f' then 40 else max (max c_min_dur barDiamMM) 10
      let recommended_c_nom := c_min + 10
      let finalRemark :=
        if declaredCover ≠ recommended_c_nom then
          "Recommended nominal concrete cover value is " ++ toString recommended_c_nom ++ " mm."
        else "Nominal concrete cover correct."
      (some (recommended_c_nom / 1000), remarks0 ++ [finalRemark])

/-- The fixed list of standard plate-bar axial spacings
(`Element.get_plate_reinforcement`, main.py lines 105-106). -/
def axial_spacings : List ℚ :=
  [0.3, 0.25, 0.22, 0.2, 0.19, 0.18, 0.17, 0.15, 0.15,
   0.14, 0.13, 0.125, 0.12, 0.11, 0.1, 0.08, 0.05]

/-- Admissibility of a spacing `s` in `Element.get_plate_reinforcement`:
the clear-distance guard `s > bar_diam + cover` together with the area
conditions on the per-unit-width provided area `(1/s) * bar_area`. -/
def spacingOk (required_area min_area max_area bar_diam cover s : ℚ) : Prop :=
  bar_diam + cover < s ∧
    required_area ≤ (1 / s) * (pyPi * (bar_diam / 2) ^ 2) ∧
    min_area ≤ (1 / s) * (pyPi * (bar_diam / 2) ^ 2) ∧
    (1 / s) * (pyPi * (bar_diam / 2) ^ 2) ≤ max_area

instance (ra mn mx d c s : ℚ) : Decidable (spacingOk ra mn mx d c s) := by
  unfold spacingOk; infer_instance

/-- `Element.get_plate_reinforcement` (main.py lines 83-116): first spacing
of `axial_spacings` passing the clear-distance guard and the area bounds;
`(none, none)` when no spacing qualifies. -/
def get_plate_reinforcement (required_area min_area max_area bar_diam cover : ℚ) :
    Option ℚ × Option ℚ :=
  match axial_spacings.find?
      (fun s => decide (spacingOk required_area min_area max_area bar_diam cover s)) with
  | some s => (some ((1 / s) * (pyPi * (bar_diam / 2) ^ 2)), some s)
  | none => (none, none)

/-- Width left for additional bars in `Element.get_beam_reinforcement`
(main.py line 147), with `min_bars = 2`. -/
def beamWidthLeft (bar_diam stirrup_diam width cover : ℚ) : ℚ :=
  width - 4 * cover - 2 * stirrup_diam - 2 * bar_diam

/-- Number of additional bars, `ceil(width_left / (cover + bar_diam))`
(main.py line 150). -/
def beamAddBars (bar_diam stirrup_diam width cover : ℚ) : ℤ :=
  ⌈beamWidthLeft bar_diam stirrup_diam width cover / (cover + bar_diam)⌉

/-- Maximum bar count of `Element.get_beam_reinforcement`
(main.py lines 151-154), including the one-extra-bar tie-break branch. -/
def beamMaxBars (bar_diam stirrup_diam width cover : ℚ) : ℤ :=
  if bar_diam ≤ beamWidthLeft bar_diam stirrup_diam width cover
      - beamAddBars bar_diam stirrup_diam width cover * (cover + bar_diam) then
    2 + beamAddBars bar_diam stirrup_diam width cover
  else
    2 + beamAddBars bar_diam stirrup_diam width cover - 1

/-- Admissibility of a bar count `n` in `Element.get_beam_reinforcement`:
`provided_area >= required_area and min_area <= provided_area <= max_area`
for `provided_area = n * pi * (bar_diam/2)**2`. -/
def barOk (required_area min_area max_area bar_diam : ℚ) (n : ℕ) : Prop :=
  required_area ≤ (n : ℚ) * (pyPi * (bar_diam / 2) ^ 2) ∧
    min_area ≤ (n : ℚ) * (pyPi * (bar_diam / 2) ^ 2) ∧
    (n : ℚ) * (pyPi * (bar_diam / 2) ^ 2) ≤ max_area

instance (ra mn mx d : ℚ) (n : ℕ) : Decidable (barOk ra mn mx d n) := by
  unfold barOk; infer_instance

/-- `Element.get_beam_reinforcement` (main.py lines 118-160): scan the bar
counts `range(2, max_bars + 1)` in ascending order and return the first
admissible count with its area; `(none, none)` when none qualifies. -/
def get_beam_reinforcement (required_area min_area max_area bar_diam stirrup_diam width cover : ℚ) :
    Option ℚ × Option ℕ :=
  match (List.range' 2 (beamMaxBars bar_diam stirrup_diam width cover - 1).toNat).find?
      (fun n => decide (barOk required_area min_area max_area bar_diam n)) with
  | some n => (some ((n : ℚ) * (pyPi * (bar_diam / 2) ^ 2)), some n)
  | none => (none, none)

/-! ## Plate (`Plate.calc_reinforcement`, main.py lines 233-358) -/

/-- Input of a plate task: the schema-validation outcome, the material
properties looked up from the catalog (MPa), the raw widget values
(`p_th_lineEdit` cm, `p_concr_cover_lineEdit` cm, `p_bar_diam_combo` mm,
`p_moment_lineEdit` kNm) and the nominal-cover table data. -/
structure PlateInput where
  valid : Bool
  fck : ℚ
  fctm : ℚ
  fyd : ℚ
  fyk : ℚ
  barDiamMM : ℚ
  heightCM : ℚ
  coverCM : ℚ
  moment : ℚ
  expo : ExpoProps
  concNum : ℤ

/-- The nominal-cover call made by `Plate.calc_reinforcement` (line 307). -/
def plateNomCover (P : PlateInput) : Option ℚ × List String :=
  get_nominal_cover 'p' P.expo P.concNum P.barDiamMM P.coverCM

/-- Design concrete strength `f_cd = fck * 1000 / 1.4` in kPa (line 293). -/
def plate_f_cd (P : PlateInput) : ℚ := P.fck * 1000 / 1.4

/-- Effective height `height - (nom_cover + 0.5 * bar_diam)` (line 314). -/
def plateEffHeight (P : PlateInput) : ℚ :=
  P.heightCM / 100 - (P.coverCM / 100 + 0.5 * (P.barDiamMM / 1000))

/-- Minimum reinforcement area (line 317), with unit width `1`. -/
def plateMinArea (P : PlateInput) : ℚ :=
  max (0.26 * (P.fctm * 1000 / (P.fyk * 1000)) * 1 * plateEffHeight P)
    (0.0013 * 1 * plateEffHeight P)

/-- Maximum reinforcement area `0.04 * width * height` (line 318). -/
def plateMaxArea (P : PlateInput) : ℚ := 0.04 * 1 * (P.heightCM / 100)

/-- Moment ratio `mu = M / (width * d^2 * f_cd)` (line 322). -/
def plateMu (P : PlateInput) : ℚ :=
  P.moment / (1 * (plateEffHeight P) ^ 2 * plate_f_cd P)

/-- Required area on the `mu <= mu_lim` branch (lines 330-332). -/
def plateRequiredArea (P : PlateInput) (rsqrt : ℚ → ℚ) : ℚ :=
  max ((0.973 - rsqrt (0.974 - 1.95 * plateMu P)) * 1 * plateEffHeight P *
      (plate_f_cd P / (P.fyd * 1000)))
    (plateMinArea P)

/-- The spacing-search call made by `Plate.calc_reinforcement` (lines 334-338). -/
def plateSearch (P : PlateInput) (rsqrt : ℚ → ℚ) : Option ℚ × Option ℚ :=
  get_plate_reinforcement (plateRequiredArea P rsqrt) (plateMinArea P) (plateMaxArea P)
    (P.barDiamMM / 1000) (P.coverCM / 100)

/-- The `results` dictionary of `Plate.calc_reinforcement` (lines 345-350). -/
structure PlateResult where
  provided_area : Option ℚ
  provided_spacing : Option ℚ
  required_area : Option ℚ
  remarks : List String
  deriving DecidableEq, Repr

/-- `Plate.calc_reinforcement` (main.py lines 260-355).  The
`remarks.append(*nom_cover_remarks)` call at line 308 raises a `TypeError`
unless the nominal-cover remark list has exactly one element. -/
def calcPlate (P : PlateInput) (rsqrt : ℚ → ℚ) : Except PyErr PlateResult :=
  if P.valid = false then
    Except.ok ⟨none, none, none, ["The file is not valid.", "Calculations finished."]⟩
  else
    match (plateNomCover P).2 with
    | [r0] =>
        if 0.374 < plateMu P then
          Except.ok ⟨none, none, none,
            ["The file is valid, starting calculations...", r0,
             "Mu value too high!", "Calculations finished."]⟩
        else
          Except.ok ⟨(plateSearch P rsqrt).1, (plateSearch P rsqrt).2,
            some (plateRequiredArea P rsqrt),
            ["The file is valid, starting calculations...", r0,
             "Mu value correct.", "Calculations finished."]⟩
    | _ => Except.error PyErr.typeError

/-! ## Beam (`Beam.calc_reinforcement`, main.py lines 361-552) -/

/-- Input of a beam task; `supportSection` is `b_sup_section_radioBtn`,
the flange fields are only read on the span branch. -/
structure BeamInput where
  valid : Bool
  fck : ℚ
  fctm : ℚ
  fyd : ℚ
  fyk : ℚ
  barDiamMM : ℚ
  heightCM : ℚ
  widthCM : ℚ
  coverCM : ℚ
  moment : ℚ
  supportSection : Bool
  flHeightCM : ℚ
  flWidthCM : ℚ
  expo : ExpoProps
  concNum : ℤ

/-- The nominal-cover call made by `Beam.calc_reinforcement` (line 445). -/
def beamNomCover (B : BeamInput) : Option ℚ × List String :=
  get_nominal_cover 'b' B.expo B.concNum B.barDiamMM B.coverCM

/-- Design concrete strength of the beam (line 429). -/
def beam_f_cd (B : BeamInput) : ℚ := B.fck * 1000 / 1.4

/-- Effective height `height - (nom_cover + stirrup_diam + 0.5 * bar_diam)`
with `stirrup_diam = 0.008` (lines 436, 452). -/
def beamEffHeight (B : BeamInput) : ℚ :=
  B.heightCM / 100 - (B.coverCM / 100 + 0.008 + 0.5 * (B.barDiamMM / 1000))

/-- Minimum reinforcement area of the beam (line 455). -/
def beamMinArea (B : BeamInput) : ℚ :=
  max (0.26 * (B.fctm * 1000 / (B.fyk * 1000)) * (B.widthCM / 100) * beamEffHeight B)
    (0.0013 * (B.widthCM / 100) * beamEffHeight B)

/-- Maximum reinforcement area of the beam (line 456). -/
def beamMaxArea (B : BeamInput) : ℚ := 0.04 * (B.widthCM / 100) * (B.heightCM / 100)

/-- Outcome of the support/span branch logic of `Beam.calc_reinforcement`
(lines 460-522): the `mu_correct` and `mu2_correct` flags, the required
area when one was computed, and the remarks the branch appended. -/
structure BeamCoreOut where
  mu_correct : Bool
  mu2_correct : Bool
  required_area : Option ℚ
  branch_remarks : List String
  deriving DecidableEq, Repr

/-- The support/span branch logic of `Beam.calc_reinforcement`
(lines 460-522), producing flags, required area and branch remarks.
It never consults the bar-layout search. -/
def beamCore (B : BeamInput) (rsqrt : ℚ → ℚ) : BeamCoreOut :=
  let f_cd := beam_f_cd B
  let f_yd := B.fyd * 1000
  let w := B.widthCM / 100
  let d := beamEffHeight B
  let mn := beamMinArea B
  if B.supportSection then
    let mu := B.moment / (w * d ^ 2 * f_cd)
    if 0.374 < mu then ⟨false, true, none, ["Mu value too high!"]⟩
    else
      let alpha_1 := 0.973 - rsqrt (0.974 - 1.95 * mu)
      ⟨true, true, some (max (alpha_1 * w * d * (f_cd / f_yd)) mn), ["Mu value correct."]⟩
  else
    let flh := B.flHeightCM / 100
    let flw := B.flWidthCM / 100
    let mu := B.moment / (flw * f_cd * d ^ 2)
    if 0.374 < mu then ⟨false, true, none, ["Mu value too high!"]⟩
    else
      let eta : ℚ := 1
      let lbda_x := ((eta - rsqrt (eta ^ 2 - 2 * eta * mu)) / eta) * d
      if lbda_x < flh then
        let alpha_1 := eta - rsqrt (eta ^ 2 - 2 * eta * mu)
        ⟨true, true, some (max (alpha_1 * flw * d * (f_cd / f_yd)) mn),
          ["Mu value correct.", "Section is an apparent T section."]⟩
      else
        let bm1 := flh * (flw - w) * (d - 0.5 * flh) * eta * f_cd
        let bm2 := B.moment - bm1
        let mu_2 := bm2 / (w * f_cd * d ^ 2)
        if 0.374 < mu_2 then
          ⟨true, false, none,
            ["Mu value correct.", "Section is a real T section.",
             "Mu value after recalculation too high!"]⟩
        else
          let ra1 := bm1 / ((d - 0.5 * flh) * f_yd)
          let ra2 := (eta - rsqrt (eta ^ 2 - 2 * eta * mu)) * w * d * (f_cd / f_yd)
          ⟨true, true, some (max (ra1 + ra2) mn),
            ["Mu value correct.", "Section is a real T section."]⟩

/-- The bar-search call made by `Beam.calc_reinforcement` (lines 526-532). -/
def beamSearch (B : BeamInput) (ra : ℚ) : Option ℚ × Option ℕ :=
  get_beam_reinforcement ra (beamMinArea B) (beamMaxArea B) (B.barDiamMM / 1000) 0.008
    (B.widthCM / 100) (B.coverCM / 100)

/-- The `results` dictionary of `Beam.calc_reinforcement` (lines 539-544). -/
structure BeamResult where
  provided_area : Option ℚ
  provided_bars : Option ℕ
  required_area : Option ℚ
  remarks : List String
  deriving DecidableEq, Repr

/-- `Beam.calc_reinforcement` (main.py lines 395-549).  The search runs only
when both mu flags are set; the remark list never depends on its outcome. -/
def calcBeam (B : BeamInput) (rsqrt : ℚ → ℚ) : Except PyErr BeamResult :=
  if B.valid = false then
    Except.ok ⟨none, none, none, ["The file is not valid.", "Calculations finished."]⟩
  else
    match (beamNomCover B).2 with
    | [r0] =>
        let core := beamCore B rsqrt
        let search :=
          if core.mu_correct && core.mu2_correct then
            match core.required_area with
            | some ra => beamSearch B ra
            | none => (none, none)
          else (none, none)
        Except.ok ⟨search.1, search.2, core.required_area,
          "The file is valid, starting calculations..." :: r0 ::
            (core.branch_remarks ++ ["Calculations finished."])⟩
    | _ => Except.error PyErr.typeError

/-! ## Column (`Column.calc_reinforcement`, main.py lines 555-731) -/

/-- Input of a column task. -/
structure ColumnInput where
  valid : Bool
  fck : ℚ
  fyd : ℚ
  barDiamMM : ℚ
  heightCM : ℚ
  widthCM : ℚ
  coverCM : ℚ
  moment : ℚ
  vert : ℚ
  expo : ExpoProps
  concNum : ℤ

/-- The nominal-cover call made by `Column.calc_reinforcement` (line 634). -/
def columnNomCover (C : ColumnInput) : Option ℚ × List String :=
  get_nominal_cover 'c' C.expo C.concNum C.barDiamMM C.coverCM

/-- Intermediate values of `Column.calc_reinforcement` (lines 619-686),
mirroring the locals the Python code binds before the minimum-area
adjustment.  `alpha_2_0` is the value first assigned to `alpha_2` at
line 665; `alpha_2` is its final (possibly clamped) value. -/
structure ColumnCore where
  f_cd : ℚ
  f_yd : ℚ
  bar_diam : ℚ
  height : ℚ
  width : ℚ
  nom_cover : ℚ
  moment_modified : Bool
  bend_moment : ℚ
  a : ℚ
  eff_height : ℚ
  delta : ℚ
  s : ℚ
  n_ed : ℚ
  m_ed : ℚ
  m_ed_1 : ℚ
  alpha_1_2_min : ℚ
  alpha_1_min : ℚ
  alpha_2_min : ℚ
  alpha_2_0 : ℚ
  alpha_2_ge : Bool
  alpha_1 : ℚ
  alpha_2 : ℚ
  min_area : ℚ
  max_area : ℚ
  required_area_1 : ℚ
  required_area_2 : ℚ

/-- Computation of the column intermediates (main.py lines 619-686),
up to and including the pre-adjustment required areas. -/
def columnCore (C : ColumnInput) (rsqrt : ℚ → ℚ) : ColumnCore :=
  let f_cd := C.fck * 1000 / 1.4
  let f_yd := C.fyd * 1000
  let bar_diam := C.barDiamMM / 1000
  let stirrup_diam : ℚ := 0.008
  let height := C.heightCM / 100
  let width := C.widthCM / 100
  let nom_cover := C.coverCM / 100
  let eccentricity := max (height / 30) 0.02
  let moment_modified := decide (C.moment < C.vert * eccentricity)
  let bend_moment := if C.moment < C.vert * eccentricity then C.vert * eccentricity else C.moment
  let a := nom_cover + 0.5 * bar_diam + stirrup_diam
  let eff_height := height - a
  let delta := a / eff_height
  let s := width * eff_height * f_cd
  let n_ed := C.vert / s
  let m_ed := bend_moment / (s * eff_height)
  let m_ed_1 := m_ed + 0.5 * n_ed * (1 - delta)
  let alpha_1_2_min := max (0.002 * (1 + delta) * (f_yd / f_cd)) (0.1 * n_ed)
  let alpha_1_min := 0.5 * alpha_1_2_min
  let alpha_2_min := alpha_1_min
  let alpha_2_0 := (m_ed_1 - 0.371) / (1 - delta)
  let alpha_2_ge := decide (alpha_2_min ≤ alpha_2_0)
  let alpha_2 := if alpha_2_min ≤ alpha_2_0 then alpha_2_0 else alpha_2_min
  let alpha_1 :=
    if alpha_2_min ≤ alpha_2_0 then max (0.5 - n_ed + alpha_2_0) alpha_1_min
    else if 0 ≤ 0.947 - 1.95 * m_ed_1 then
      max (0.973 - n_ed - rsqrt (0.947 - 1.95 * m_ed_1)) alpha_1_min
    else alpha_1_min
  let min_area := max (0.1 * C.vert / f_yd) (0.002 * width * height)
  let max_area := 0.04 * width * height
  { f_cd := f_cd, f_yd := f_yd, bar_diam := bar_diam, height := height, width := width,
    nom_cover := nom_cover, moment_modified := moment_modified, bend_moment := bend_moment,
    a := a, eff_height := eff_height, delta := delta, s := s, n_ed := n_ed, m_ed := m_ed,
    m_ed_1 := m_ed_1, alpha_1_2_min := alpha_1_2_min, alpha_1_min := alpha_1_min,
    alpha_2_min := alpha_2_min, alpha_2_0 := alpha_2_0, alpha_2_ge := alpha_2_ge,
    alpha_1 := alpha_1, alpha_2 := alpha_2, min_area := min_area, max_area := max_area,
    required_area_1 := alpha_1 * (s / f_yd), required_area_2 := alpha_2 * (s / f_yd) }

/-- The minimum-total-area adjustment of `Column.calc_reinforcement`
(lines 688-695): when the summed required areas fall below `min_area` the
faces are redistributed; the if/elif chain leaves the pair unchanged when
no arm matches. -/
def columnAdjust (r1 r2 min_area : ℚ) : ℚ × ℚ :=
  if r1 + r2 < min_area then
    if r1 < min_area / 2 ∧ r2 < min_area / 2 then (min_area / 2, min_area / 2)
    else if min_area / 2 ≤ r1 then (r1, min_area - r1)
    else if min_area / 2 ≤ r2 then (min_area - r2, r2)
    else (r1, r2)
  else (r1, r2)

/-- The `results` dictionary of `Column.calc_reinforcement` (lines 718-723)
together with the relevant entries of the `locals()` diagnostic dump that
the function also returns in its `parameters` payload (line 715). -/
structure ColumnResult where
  required_area_1 : Option ℚ
  required_area_2 : Option ℚ
  provided_area_1 : Option ℚ
  provided_bars_1 : Option ℕ
  provided_area_2 : Option ℚ
  provided_bars_2 : Option ℕ
  remarks : List String
  min_area : Option ℚ
  m_ed_1 : Option ℚ
  delta : Option ℚ
  n_ed : Option ℚ
  alpha_2_min : Option ℚ
  alpha_2_ge : Option Bool
  deriving DecidableEq, Repr

/-- The result record produced by the valid branch of
`Column.calc_reinforcement` (lines 613-723), with `r0` the single
nominal-cover remark. -/
def columnOkResult (C : ColumnInput) (rsqrt : ℚ → ℚ) (r0 : String) : ColumnResult :=
  let K := columnCore C rsqrt
  let adj := columnAdjust K.required_area_1 K.required_area_2 K.min_area
  let p1 := get_beam_reinforcement adj.1 (K.min_area / 2) (K.max_area / 2)
    K.bar_diam 0.008 K.width K.nom_cover
  let p2 := get_beam_reinforcement adj.2 (K.min_area / 2) (K.max_area / 2)
    K.bar_diam 0.008 K.width K.nom_cover
  { required_area_1 := some adj.1
    required_area_2 := some adj.2
    provided_area_1 := p1.1
    provided_bars_1 := p1.2
    provided_area_2 := p2.1
    provided_bars_2 := p2.2
    remarks := ["The file is valid, starting calculations...", r0,
      (if K.moment_modified then "Modifying bending moment value."
       else "No need to modify bending moment value."),
      "Alpha values calculated.", "Calculations finished."]
    min_area := some K.min_area
    m_ed_1 := some K.m_ed_1
    delta := some K.delta
    n_ed := some K.n_ed
    alpha_2_min := some K.alpha_2_min
    alpha_2_ge := some K.alpha_2_ge }

/-- `Column.calc_reinforcement` (main.py lines 586-728). -/
def calcColumn (C : ColumnInput) (rsqrt : ℚ → ℚ) : Except PyErr ColumnResult :=
  if C.valid = false then
    Except.ok ⟨none, none, none, none, none, none,
      ["The file is not valid.", "Calculations finished."],
      none, none, none, none, none, none⟩
  else
    match (columnNomCover C).2 with
    | [r0] => Except.ok (columnOkResult C rsqrt r0)
    | _ => Except.error PyErr.typeError

/-! ## Footing (`Foot.calc_reinforcement`, main.py lines 734-963) -/

/-- Input of a footing task; `areaCoeff` is the concrete class's
`area_coefficient`, `fctk05` its `fctk_0.05` (MPa). -/
structure FootInput where
  valid : Bool
  fck : ℚ
  fctk05 : ℚ
  areaCoeff : ℚ
  fyd : ℚ
  barDiamMM : ℚ
  colBarDiamMM : ℚ
  heightCM : ℚ
  widthCM : ℚ
  lengthCM : ℚ
  coverCM : ℚ
  cHeightCM : ℚ
  cWidthCM : ℚ
  vert : ℚ
  expo : ExpoProps
  concNum : ℤ

/-- The nominal-cover call made by `Foot.calc_reinforcement` (line 848). -/
def footNomCover (F : FootInput) : Option ℚ × List String :=
  get_nominal_cover 'f' F.expo F.concNum F.barDiamMM F.coverCM

/-- `Foot.get_a_coefficient` (main.py lines 769-795): the fitted piecewise
polynomial for the punching coefficient.  For `dependent_val > 500` every
branch guard is false and the Python function falls through, implicitly
returning `None`. -/
def get_a_coefficient (v : ℚ) : Option ℚ :=
  if v ≤ 5 then some 0.2
  else if 5 < v ∧ v ≤ 35 then
    some (-3.4604e-4 * v ^ 2 + 4.0508e-2 * v + 6.1094e-3)
  else if 35 ≤ v ∧ v ≤ 50 then
    some (6.9861e-6 * v ^ 3 - 1.0796e-3 * v ^ 2 + 6.6182e-2 * v - 2.9342e-1)
  else if 50 < v ∧ v ≤ 100 then
    some (2.5424e-8 * v ^ 3 - 3.5481e-5 * v ^ 2 + 1.3977e-2 * v + 5.7667e-1)
  else if 100 < v ∧ v ≤ 150 then
    some (9.9559e-8 * v ^ 3 - 5.7721e-5 * v ^ 2 + 1.6201e-2 * v + 5.0253e-1)
  else if 150 < v ∧ v ≤ 300 then
    some (2.3680e-8 * v ^ 3 - 2.3576e-5 * v ^ 2 + 1.1079e-2 * v + 7.5862e-1)
  else if 300 < v ∧ v ≤ 500 then
    some (-1e-71 * v ^ 3 - 2.2634e-6 * v ^ 2 + 4.6857e-3 * v + 1.398)
  else none

/-- Geometry, anchorage and punching-threshold values computed by
`Foot.calc_reinforcement` before the height check (lines 828-869). -/
structure FootPre where
  f_ck : ℚ
  f_cd : ℚ
  f_ctd : ℚ
  f_yd : ℚ
  bar_diam : ℚ
  col_bar_diam : ℚ
  height : ℚ
  width : ℚ
  length : ℚ
  nom_cover : ℚ
  c_height : ℚ
  c_width : ℚ
  vert : ℚ
  f_bd : ℚ
  required_anchorage : ℚ
  min_anchorage : ℚ
  assumed_anchorage : ℚ
  nu_rd_max : ℚ
  beta : ℚ
  u0 : ℚ
  h_min : ℚ
  h_cover : ℚ

/-- Computation of the pre-height-check footing values (lines 828-869). -/
def footPre (F : FootInput) : FootPre :=
  let f_ck := F.fck * 1000
  let f_cd := f_ck / 1.4
  let f_ctk := F.fctk05 * 1000
  let f_ctd := f_ctk / 1.4
  let f_yd := F.fyd * 1000
  let bar_diam := F.barDiamMM / 1000
  let col_bar_diam := F.colBarDiamMM / 1000
  let height := F.heightCM / 100
  let width := F.widthCM / 100
  let length := F.lengthCM / 100
  let nom_cover := F.coverCM / 100
  let c_height := F.cHeightCM / 100
  let c_width := F.cWidthCM / 100
  let f_bd := 2.25 * f_ctd
  let required_anchorage := (col_bar_diam / 4) * (f_yd / f_bd)
  let min_anchorage := max (max (0.6 * required_anchorage) (10 * col_bar_diam)) 0.1
  let assumed_anchorage := max min_anchorage ((⌈required_anchorage * 100⌉ : ℚ) / 100)
  let nu_rd_max := 0.4 * 0.6 * (1 - f_ck / 250000) * f_cd
  let beta : ℚ := 1.15
  let u0 := 2 * (c_height + c_width)
  { f_ck := f_ck, f_cd := f_cd, f_ctd := f_ctd, f_yd := f_yd, bar_diam := bar_diam,
    col_bar_diam := col_bar_diam, height := height, width := width, length := length,
    nom_cover := nom_cover, c_height := c_height, c_width := c_width, vert := F.vert,
    f_bd := f_bd, required_anchorage := required_anchorage, min_anchorage := min_anchorage,
    assumed_anchorage := assumed_anchorage, nu_rd_max := nu_rd_max, beta := beta, u0 := u0,
    h_min := beta * F.vert / (nu_rd_max * u0),
    h_cover := assumed_anchorage + 1.5 * bar_diam }

/-- Flexural-design values computed on the height-correct branch of
`Foot.calc_reinforcement` (lines 878-898). -/
structure FootFlex where
  area : ℚ
  sigma : ℚ
  eff_length : ℚ
  bend_moment : ℚ
  eff_height : ℚ
  z : ℚ
  min_area : ℚ
  max_area : ℚ
  total_required_area : ℚ
  required_area : ℚ

/-- Computation of the footing flexural values (lines 878-898). -/
def footFlex (F : FootInput) : FootFlex :=
  let pre := footPre F
  let area := pre.width * pre.length
  let sigma := F.vert / area
  let eff_length := (pre.width - pre.c_width) / 2 + 0.15 * pre.c_width
  let bend_moment := sigma * pre.length * (eff_length ^ 2 / 2)
  let eff_height := pre.height - pre.nom_cover - 1.5 * pre.bar_diam
  let z := 0.9 * eff_height
  let min_area := F.areaCoeff * pre.length * eff_height
  let max_area := 0.04 * pre.length * pre.height
  let total_required_area := max (bend_moment / (z * pre.f_yd)) min_area
  { area := area, sigma := sigma, eff_length := eff_length, bend_moment := bend_moment,
    eff_height := eff_height, z := z, min_area := min_area, max_area := max_area,
    total_required_area := total_required_area,
    required_area := total_required_area / pre.length }

/-- The spacing-search call made by `Foot.calc_reinforcement`
(lines 900-904). -/
def footSearch (F : FootInput) : Option ℚ × Option ℚ :=
  get_plate_reinforcement (footFlex F).required_area
    ((footFlex F).min_area / (footPre F).length)
    ((footFlex F).max_area / (footPre F).length)
    (footPre F).bar_diam (footPre F).nom_cover

/-- First punching stress `nu_ed = vert_force / (u0 * eff_height)`
(line 911). -/
def footNuEd (F : FootInput) : ℚ := F.vert / ((footPre F).u0 * (footFlex F).eff_height)

/-- The dependant `vert_force / (sigma * c_width * c_height)` fed to
`get_a_coefficient` (line 921). -/
def footADependant (F : FootInput) : ℚ :=
  F.vert / ((footFlex F).sigma * (footPre F).c_width * (footPre F).c_height)

/-- The `results` dictionary of `Foot.calc_reinforcement` (lines 950-955).
Its `required_area` entry is `total_required_area`, which is bound only on
the height-correct path; paths that reach the dictionary without binding it
raise `NameError` and therefore never produce a `FootResult`. -/
structure FootResult where
  provided_area : Option ℚ
  provided_spacing : Option ℚ
  required_area : ℚ
  remarks : List String
  deriving DecidableEq, Repr

/-- `Foot.calc_reinforcement` (main.py lines 797-960).

* invalid file: the result dictionary reads the never-bound
  `total_required_area` → `NameError` (line 953);
* nominal-cover remark list of length ≠ 1: `remarks.append(*...)` →
  `TypeError` (line 849);
* `height < h_min or height < h_cover`: flexural design is skipped, so
  `total_required_area` is again unbound at line 953 → `NameError`;
* spacing search returns the null pair: `provided_area_per_rm * length`
  multiplies `None` by a float → `TypeError` (line 906);
* punching verification with `get_a_coefficient` falling through:
  `round(None, 2)` → `TypeError` (line 922). -/
def calcFoot (F : FootInput) (rsqrt : ℚ → ℚ) (rpow : ℚ → ℚ → ℚ) : Except PyErr FootResult :=
  if F.valid = false then Except.error PyErr.nameError
  else
    match (footNomCover F).2 with
    | [r0] =>
        let pre := footPre F
        if pre.height < pre.h_min ∨ pre.height < pre.h_cover then
          Except.error PyErr.nameError
        else
          let fl := footFlex F
          match footSearch F with
          | (none, _) => Except.error PyErr.typeError
          | (some parm, spacing?) =>
              let provided_area := parm * pre.length
              let baseRemarks :=
                ["The file is valid, starting calculations...", r0,
                 "Height of the element correct."]
              match spacing? with
              | none =>
                  Except.ok ⟨some provided_area, none, fl.total_required_area,
                    baseRemarks ++ ["Calculations finished."]⟩
              | some sp =>
                  if provided_area = 0 ∨ sp = 0 then
                    Except.ok ⟨some provided_area, some sp, fl.total_required_area,
                      baseRemarks ++ ["Calculations finished."]⟩
                  else
                    if pre.nu_rd_max < footNuEd F then
                      Except.ok ⟨some provided_area, some sp, fl.total_required_area,
                        baseRemarks ++ ["Punching verification.",
                          "EC requirement not fulfilled, nu_ed value too high.",
                          "Calculations finished."]⟩
                    else
                      match get_a_coefficient (footADependant F) with
                      | none => Except.error PyErr.typeError
                      | some ac =>
                          let a := round2 ac * pre.c_width
                          let rho_l := provided_area / (pre.length * fl.eff_height)
                          let k := min (1 + rsqrt (200 / (fl.eff_height * 1000))) 2
                          let nu_min := 0.035 * rpow k 1.5 * rsqrt (pre.f_ck * 1000)
                          let nu_rd := max (0.128 * k * rpow (100 * rho_l * pre.f_ck) (1 / 3)) nu_min
                            * 2 * fl.eff_height / a
                          let u := 2 * pre.c_width + 2 * pre.c_height + 2 * pyPi * a
                          let vert_force_red := F.vert - fl.sigma *
                            (pre.c_width * pre.c_height + 2 * a * (pre.c_width + pre.c_height)
                              + pyPi * a ^ 2)
                          let nu_ed_red := vert_force_red / (u * fl.eff_height)
                          Except.ok ⟨some provided_area, some sp, fl.total_required_area,
                            baseRemarks ++ ["Punching verification.",
                              "EC requirement fulfilled, nu_ed value correct.",
                              (if nu_rd < nu_ed_red then
                                "EC requirement not fulfilled, nu_ed_red value too high."
                               else "EC requirement fulfilled, nu_ed_red value correct."),
                              "Calculations finished."]⟩
    | _ => Except.error PyErr.typeError

/-! ## Concrete inputs used in closed statements.

Material values are taken verbatim from `properties.py`
(C25/30: fck 25, fctm 2.6, fctk_0.05 1.8, area_coefficient 0.00135;
C20/25: fck 20, fctm 2.2; steel RB500: fyd 420, fyk 500). -/

/-- A schema-valid C25/30 / RB500 footing, 200×200×30 cm, 30×30 cm column,
φ16 main bars, φ20 column bars, 5 cm cover, 1000 kN: its height is far
below `h_cover`, so the height check aborts. -/
def footC1 : FootInput :=
  { valid := true, fck := 25, fctk05 := 1.8, areaCoeff := 0.00135, fyd := 420,
    barDiamMM := 16, colBarDiamMM := 20, heightCM := 30, widthCM := 200, lengthCM := 200,
    coverCM := 5, cHeightCM := 30, cWidthCM := 30, vert := 1000, expo := expX0, concNum := 25 }

/-- A schema-valid C25/30 / RB500 footing, 200×200×50 cm, 30×30 cm column,
φ16 main bars, φ6 column bars, 100 kN, with a 30 cm declared cover: the
height check passes but every standard spacing violates the clear-distance
guard `s > bar_diam + cover`, so the spacing search returns the null pair. -/
def footC2 : FootInput :=
  { valid := true, fck := 25, fctk05 := 1.8, areaCoeff := 0.00135, fyd := 420,
    barDiamMM := 16, colBarDiamMM := 6, heightCM := 50, widthCM := 200, lengthCM := 200,
    coverCM := 30, cHeightCM := 30, cWidthCM := 30, vert := 100, expo := expX0, concNum := 25 }

/-- A schema-valid C25/30 / RB500 footing, 1000×1000×50 cm plan with a
30×30 cm column, φ16 main bars, φ6 column bars, 5 cm cover, 100 kN: the
flexural design and spacing search succeed, the first punching check
passes, and the punching dependant `(width*length)/(c_width*c_height)`
is about 1111 > 500. -/
def footC9 : FootInput :=
  { valid := true, fck := 25, fctk05 := 1.8, areaCoeff := 0.00135, fyd := 420,
    barDiamMM := 16, colBarDiamMM := 6, heightCM := 50, widthCM := 1000, lengthCM := 1000,
    coverCM := 5, cHeightCM := 30, cWidthCM := 30, vert := 100, expo := expX0, concNum := 25 }

/-- A schema-valid C25/30 / RB500 column, 40×40 cm, φ20 bars, 3 cm cover,
300 kNm and 500 kN: the code takes the direct-solve branch
(`alpha_2 >= alpha_2_min`) although `m_ed_1` does not exceed
`0.371/(1-delta) + alpha_min`. -/
def colA : ColumnInput :=
  { valid := true, fck := 25, fyd := 420, barDiamMM := 20, heightCM := 40, widthCM := 40,
    coverCM := 3, moment := 300, vert := 500, expo := expX0, concNum := 25 }

/-- A schema-valid C25/30 / RB500 plate, 100 cm thick with a 29 cm declared
cover and φ16 bars, 100 kNm: `mu` is tiny, but `bar_diam + cover = 0.306`
exceeds every standard spacing, so no discrete layout exists. -/
def plateC7 : PlateInput :=
  { valid := true, fck := 25, fctm := 2.6, fyd := 420, fyk := 500, barDiamMM := 16,
    heightCM := 100, coverCM := 29, moment := 100, expo := expX0, concNum := 25 }

/-- A schema-valid C25/30 / RB500 support-section beam, 50×30 cm with a
10 cm declared cover and φ16 bars, 10 kNm: `mu` is small, but the large
cover leaves no room for even the minimum two bars, so the bar search
returns the null pair. -/
def beamC7 : BeamInput :=
  { valid := true, fck := 25, fctm := 2.6, fyd := 420, fyk := 500, barDiamMM := 16,
    heightCM := 50, widthCM := 30, coverCM := 10, moment := 10, supportSection := true,
    flHeightCM := 0, flWidthCM := 0, expo := expX0, concNum := 25 }

/-- A schema-valid plate combining exposure class XC2 with concrete C20/25:
`get_nominal_cover` emits both the low-concrete-class remark and the
cover-recommendation remark. -/
def plateC8 : PlateInput :=
  { valid := true, fck := 20, fctm := 2.2, fyd := 420, fyk := 500, barDiamMM := 12,
    heightCM := 20, coverCM := 3, moment := 50, expo := expXC2, concNum := 20 }

/-- A schema-valid beam combining exposure class XC2 with concrete C20/25,
producing two nominal-cover remarks. -/
def beamC8 : BeamInput :=
  { valid := true, fck := 20, fctm := 2.2, fyd := 420, fyk := 500, barDiamMM := 12,
    heightCM := 50, widthCM := 30, coverCM := 3, moment := 50, supportSection := true,
    flHeightCM := 0, flWidthCM := 0, expo := expXC2, concNum := 20 }

/-- A schema-valid column combining exposure class XC2 with concrete C20/25,
producing two nominal-cover remarks. -/
def columnC8 : ColumnInput :=
  { valid := true, fck := 20, fyd := 420, barDiamMM := 12, heightCM := 40, widthCM := 40,
    coverCM := 3, moment := 100, vert := 500, expo := expXC2, concNum := 20 }

/-- A schema-valid footing combining exposure class XC2 with concrete
C20/25, producing two nominal-cover remarks. -/
def footC8 : FootInput :=
  { valid := true, fck := 20, fctk05 := 1.5, areaCoeff := 0.0013, fyd := 420,
    barDiamMM := 12, colBarDiamMM := 12, heightCM := 50, widthCM := 200, lengthCM := 200,
    coverCM := 5, cHeightCM := 30, cWidthCM := 30, vert := 100, expo := expXC2, concNum := 20 }

/-! ## Specification predicates and expected result records -/

/-- Full functional specification of `Element.get_beam_reinforcement`: a
successful scan returns the area `n * pi * (d/2)^2` of the smallest
admissible bar count `n` between 2 and the computed maximum, and the scan
returns the null pair when no count in that range is admissible. -/
def beamScanSpec (ra mn mx d sd w c : ℚ) : Prop :=
  (∀ (a : ℚ) (n : ℕ), get_beam_reinforcement ra mn mx d sd w c = (some a, some n) →
    a = (n : ℚ) * (pyPi * (d / 2) ^ 2) ∧ 2 ≤ n ∧ (n : ℤ) ≤ beamMaxBars d sd w c ∧
    barOk ra mn mx d n ∧ ∀ m : ℕ, 2 ≤ m → m < n → ¬ barOk ra mn mx d m)
  ∧ ((∀ n : ℕ, 2 ≤ n → (n : ℤ) ≤ beamMaxBars d sd w c → ¬ barOk ra mn mx d n) →
    get_beam_reinforcement ra mn mx d sd w c = (none, none))

/-- The result `calcColumn` produces on `colA` (with the `sq0` oracle; the
branch taken on `colA` is the direct-solve branch, which involves no square
root, so the oracle value is never used). -/
def colAResult : ColumnResult :=
  { required_area_1 := some (18992 / 8728125)
    required_area_2 := some (1241 / 3325000)
    provided_area_1 := none
    provided_bars_1 := none
    provided_area_2 := some (176855943800711 / 281474976710656000)
    provided_bars_2 := some 2
    remarks := ["The file is valid, starting calculations...",
      "Recommended nominal concrete cover value is 30 mm.",
      "No need to modify bending moment value.",
      "Alpha values calculated.", "Calculations finished."]
    min_area := some (1 / 3125)
    m_ed_1 := some (1645 / 3872)
    delta := some (3 / 22)
    n_ed := some (35 / 176)
    alpha_2_min := some (147 / 5500)
    alpha_2_ge := some true }

/-- The result `calcPlate` produces on `plateC7` (the remark list is
independent of the square-root oracle; the required area shown is the one
obtained with `sq0`). -/
def plateC7Result : PlateResult :=
  ⟨none, none, some (16263 / 560000),
    ["The file is valid, starting calculations...",
     "Recommended nominal concrete cover value is 26 mm.",
     "Mu value correct.", "Calculations finished."]⟩

/-- The result `calcBeam` produces on `beamC7` with the `sq0` oracle. -/
def beamC7Result : BeamResult :=
  ⟨none, none, some (417 / 87500),
    ["The file is valid, starting calculations...",
     "Recommended nominal concrete cover value is 26 mm.",
     "Mu value correct.", "Calculations finished."]⟩

/-- Decidable equality for `Except`, used to evaluate the embedded
functions at concrete inputs. -/
instance excDecEq {ε α : Type} [DecidableEq ε] [DecidableEq α] : DecidableEq (Except ε α) :=
  fun x y =>
  match x, y with
  | .error e, .error f =>
    if h : e = f then isTrue (by rw [h]) else isFalse (fun hc => by cases hc; exact h rfl)
  | .error _, .ok _ => isFalse (fun hc => by cases hc)
  | .ok _, .error _ => isFalse (fun hc => by cases hc)
  | .ok a, .ok b =>
    if h : a = b then isTrue (by rw [h]) else isFalse (fun hc => by cases hc; exact h rfl)

/-! ## Helper lemmas -/

/-- `List.find?` over a block of consecutive naturals returns an element of
the block satisfying the predicate, and every earlier number fails it. -/
theorem find?_range'_eq_some {p : ℕ → Bool} :
    ∀ (cnt s n : ℕ), (List.range' s cnt).find? p = some n →
      s ≤ n ∧ n < s + cnt ∧ p n = true ∧ ∀ m, s ≤ m → m < n → p m = false := by
  intro cnt
  induction cnt with
  | zero => intro s n h; simp [List.range'] at h
  | succ k ih =>
    intro s n h
    rw [List.range'_succ] at h
    by_cases hp : p s
    · rw [List.find?_cons_of_pos _ hp] at h
      cases h
      exact ⟨Nat.le_refl _, by omega, hp, fun m h1 h2 => by omega⟩
    · rw [List.find?_cons_of_neg _ hp] at h
      obtain ⟨h1, h2, h3, h4⟩ := ih (s + 1) n h
      refine ⟨by omega, by omega, h3, ?_⟩
      intro m hm1 hm2
      rcases Nat.eq_or_lt_of_le hm1 with heq | hlt
      · subst heq; exact Bool.eq_false_iff.mpr hp
      · exact h4 m hlt hm2

/-- `List.find?` over a block of consecutive naturals returns `none` when
every number of the block fails the predicate. -/
theorem find?_range'_eq_none {p : ℕ → Bool} (s cnt : ℕ)
    (h : ∀ m, s ≤ m → m < s + cnt → p m = false) :
    (List.range' s cnt).find? p = none := by
  rw [List.find?_eq_none]
  intro x hx
  rw [List.mem_range'_1] at hx
  simp [h x hx.1 hx.2]

/-- The ceiling definition of `add_bars` makes the leftover width
nonpositive. -/
theorem beamResidual_nonpos (d sd w c : ℚ) (hcd : 0 < c + d) :
    beamWidthLeft d sd w c - beamAddBars d sd w c * (c + d) ≤ 0 := by
  have h1 : beamWidthLeft d sd w c / (c + d) ≤ (beamAddBars d sd w c : ℚ) := Int.le_ceil _
  rw [div_le_iff₀ hcd] at h1
  linarith

/-- The minimum-area adjustment always restores the minimum total. -/
theorem columnAdjust_sum (r1 r2 m : ℚ) :
    m ≤ (columnAdjust r1 r2 m).1 + (columnAdjust r1 r2 m).2 := by
  unfold columnAdjust
  by_cases h : r1 + r2 < m
  · rw [if_pos h]
    by_cases h1 : r1 < m / 2 ∧ r2 < m / 2
    · rw [if_pos h1]; dsimp; linarith
    · rw [if_neg h1]
      by_cases h2 : m / 2 ≤ r1
      · rw [if_pos h2]; dsimp; linarith
      · rw [if_neg h2]
        by_cases h3 : m / 2 ≤ r2
        · rw [if_pos h3]; dsimp; linarith
        · exact absurd ⟨lt_of_not_le h2, lt_of_not_le h3⟩ h1
  · rw [if_neg h]; dsimp; linarith [not_lt.mp h]

/-- The fitted punching-coefficient curve has no branch for arguments
above 500. -/
theorem get_a_coefficient_gt_500 (v : ℚ) (hv : 500 < v) : get_a_coefficient v = none := by
  have h1 : ¬(v ≤ 5) := by linarith
  have h2 : ¬(5 < v ∧ v ≤ 35) := fun h => absurd h.2 (by linarith)
  have h3 : ¬(35 ≤ v ∧ v ≤ 50) := fun h => absurd h.2 (by linarith)
  have h4 : ¬(50 < v ∧ v ≤ 100) := fun h => absurd h.2 (by linarith)
  have h5 : ¬(100 < v ∧ v ≤ 150) := fun h => absurd h.2 (by linarith)
  have h6 : ¬(150 < v ∧ v ≤ 300) := fun h => absurd h.2 (by linarith)
  have h7 : ¬(300 < v ∧ v ≤ 500) := fun h => absurd h.2 (by linarith)
  unfold get_a_coefficient
  rw [if_neg h1, if_neg h2, if_neg h3, if_neg h4, if_neg h5, if_neg h6, if_neg h7]

/-! ## Claim theorems -/

/-- C3: for all arguments with positive bar diameter,
`get_beam_reinforcement` scans bar counts ascending from 2 to the computed
maximum and returns `(count * pi * (d/2)^2, count)` for the smallest count
whose area is ≥ `required_area` and within `[min_area, max_area]`; if no
count in that range qualifies it returns the null pair
(see `beamScanSpec`). -/
theorem beam_bar_scan_correct (ra mn mx d sd w c : ℚ) (hd : 0 < d) :
    beamScanSpec ra mn mx d sd w c := by
  constructor
  · intro a n h
    cases hf : (List.range' 2 (beamMaxBars d sd w c - 1).toNat).find?
        (fun n => decide (barOk ra mn mx d n)) with
    | none =>
      have heq : get_beam_reinforcement ra mn mx d sd w c = (none, none) := by
        unfold get_beam_reinforcement
        rw [hf]
      rw [heq] at h
      simp at h
    | some n0 =>
      have heq : get_beam_reinforcement ra mn mx d sd w c
          = (some ((n0 : ℚ) * (pyPi * (d / 2) ^ 2)), some n0) := by
        unfold get_beam_reinforcement
        rw [hf]
      rw [heq] at h
      simp only [Prod.mk.injEq, Option.some.injEq] at h
      obtain ⟨ha, hn⟩ := h
      subst hn
      obtain ⟨h1, h2, h3, h4⟩ := find?_range'_eq_some _ 2 n0 hf
      refine ⟨ha.symm, h1, ?_, of_decide_eq_true h3, ?_⟩
      · omega
      · intro m hm2 hmn
        exact of_decide_eq_false (h4 m hm2 hmn)
  · intro hall
    have hf : (List.range' 2 (beamMaxBars d sd w c - 1).toNat).find?
        (fun n => decide (barOk ra mn mx d n)) = none := by
      apply find?_range'_eq_none
      intro m hm1 hm2
      exact decide_eq_false (hall m hm1 (by omega))
    unfold get_beam_reinforcement
    rw [hf]

/-- C4: every non-null spacing returned by `get_plate_reinforcement` is a
member of the fixed standard spacing list, exceeds `bar_diam + cover`, and
its per-unit-width area `bar_area / spacing` meets the required area and
lies within the `[min_area, max_area]` bounds. -/
theorem plate_spacing_sound (ra mn mx d c s : ℚ)
    (h : (get_plate_reinforcement ra mn mx d c).2 = some s) :
    s ∈ axial_spacings ∧ d + c < s ∧
      get_plate_reinforcement ra mn mx d c
        = (some ((1 / s) * (pyPi * (d / 2) ^ 2)), some s) ∧
      ra ≤ (1 / s) * (pyPi * (d / 2) ^ 2) ∧
      mn ≤ (1 / s) * (pyPi * (d / 2) ^ 2) ∧
      (1 / s) * (pyPi * (d / 2) ^ 2) ≤ mx := by
  cases hf : axial_spacings.find? (fun t => decide (spacingOk ra mn mx d c t)) with
  | none =>
    have heq : get_plate_reinforcement ra mn mx d c = (none, none) := by
      unfold get_plate_reinforcement
      rw [hf]
    rw [heq] at h
    simp at h
  | some s0 =>
    have heq : get_plate_reinforcement ra mn mx d c
        = (some ((1 / s0) * (pyPi * (d / 2) ^ 2)), some s0) := by
      unfold get_plate_reinforcement
      rw [hf]
    rw [heq] at h
    simp only [Option.some.injEq] at h
    subst h
    have hmem := List.mem_of_find?_eq_some hf
    have hp := List.find?_some hf
    simp only [decide_eq_true_eq] at hp
    have hok : spacingOk ra mn mx d c s0 := hp
    exact ⟨hmem, hok.1, heq, hok.2.1, hok.2.2.1, hok.2.2.2⟩

/-- C5: the post-adjustment required areas of a column sum to at least the
minimum area (the claim's non-negativity proviso is not even needed). -/
theorem column_required_sum_ge_min (C : ColumnInput) (rsqrt : ℚ → ℚ)
    (r : ColumnResult) (a1 a2 m : ℚ) (hok : calcColumn C rsqrt = Except.ok r)
    (h1 : r.required_area_1 = some a1) (h2 : r.required_area_2 = some a2)
    (hm : r.min_area = some m) : m ≤ a1 + a2 := by
  unfold calcColumn at hok
  split at hok
  · cases hok
    simp at h1
  · split at hok
    · cases hok
      unfold columnOkResult at h1 h2 hm
      simp only [Option.some.injEq] at h1 h2 hm
      subst h1
      subst h2
      subst hm
      exact columnAdjust_sum _ _ _
    · cases hok

/-- C6 (amended): the direct-solve branch flag recorded by the column
computation is set exactly when `alpha_2_min ≤ (m_ed_1 - 0.371)/(1 - delta)`,
i.e. (for `delta < 1`) exactly when `0.371 + alpha_min * (1 - delta) ≤ m_ed_1`
— not when `m_ed_1` exceeds `0.371/(1 - delta) + alpha_min`, as the
counterexample shows. -/
theorem column_branch_threshold_amended (C : ColumnInput) (rsqrt : ℚ → ℚ)
    (r : ColumnResult) (dl m1 am : ℚ) (hok : calcColumn C rsqrt = Except.ok r)
    (hdl : r.delta = some dl) (hdl1 : dl < 1) (hm : r.m_ed_1 = some m1)
    (ham : r.alpha_2_min = some am) :
    (r.alpha_2_ge = some true ↔ 0.371 + am * (1 - dl) ≤ m1) := by
  unfold calcColumn at hok
  split at hok
  · cases hok
    simp at hdl
  · split at hok
    · cases hok
      unfold columnOkResult at hdl hm ham ⊢
      simp only [Option.some.injEq] at hdl hm ham ⊢
      have hflag : (columnCore C rsqrt).alpha_2_ge
          = decide ((columnCore C rsqrt).alpha_2_min ≤ (columnCore C rsqrt).alpha_2_0) := rfl
      have h20 : (columnCore C rsqrt).alpha_2_0
          = ((columnCore C rsqrt).m_ed_1 - 0.371) / (1 - (columnCore C rsqrt).delta) := rfl
      rw [hflag, h20, hdl, hm, ham]
      rw [decide_eq_true_eq]
      have hpos : (0 : ℚ) < 1 - dl := by linarith
      rw [le_div_iff₀ hpos]
      constructor
      · intro hle; linarith
      · intro hle; linarith
    · cases hok

/-- C7 (amended): when the mu checks pass and the layout search fails, the
null pair propagates into the result, but the remark list is exactly the
progress remarks — no remark records the infeasibility (the remarks are
computed independently of the search outcome). -/
theorem infeasible_layout_nulls_amended :
    (∀ (P : PlateInput) (rsqrt : ℚ → ℚ) (r0 : String),
      P.valid = true → (plateNomCover P).2 = [r0] → plateMu P ≤ 0.374 →
      plateSearch P rsqrt = (none, none) →
      calcPlate P rsqrt = Except.ok ⟨none, none, some (plateRequiredArea P rsqrt),
        ["The file is valid, starting calculations...", r0, "Mu value correct.",
         "Calculations finished."]⟩) ∧
    (∀ (B : BeamInput) (rsqrt : ℚ → ℚ) (r0 : String) (ra : ℚ) (brs : List String),
      B.valid = true → (beamNomCover B).2 = [r0] →
      beamCore B rsqrt = ⟨true, true, some ra, brs⟩ →
      beamSearch B ra = (none, none) →
      calcBeam B rsqrt = Except.ok ⟨none, none, some ra,
        "The file is valid, starting calculations..." :: r0 ::
          (brs ++ ["Calculations finished."])⟩) := by
  constructor
  · intro P rsqrt r0 hv hnom hmu hsearch
    unfold calcPlate
    rw [if_neg (by simp [hv])]
    split
    · next r1 heq =>
        rw [hnom] at heq
        simp only [List.cons.injEq, and_true] at heq
        subst heq
        rw [if_neg (not_lt.mpr hmu), hsearch]
    · next hne =>
        exact absurd hnom (hne r0)
  · intro B rsqrt r0 ra brs hv hnom hcore hsearch
    unfold calcBeam
    rw [if_neg (by simp [hv])]
    split
    · next r1 heq =>
        rw [hnom] at heq
        simp only [List.cons.injEq, and_true] at heq
        subst heq
        simp only [hcore, hsearch, Bool.and_self, if_true]
    · next hne =>
        exact absurd hnom (hne r0)

/-- C8: with a valid input whose nominal-cover computation yields two or
more remarks, every `calc_reinforcement` raises a `TypeError` at
`remarks.append(*nom_cover_remarks)` instead of returning a result. -/
theorem nom_cover_two_remarks_typeError :
    (∀ (P : PlateInput) (rsqrt : ℚ → ℚ), P.valid = true →
      2 ≤ (plateNomCover P).2.length → calcPlate P rsqrt = Except.error PyErr.typeError) ∧
    (∀ (B : BeamInput) (rsqrt : ℚ → ℚ), B.valid = true →
      2 ≤ (beamNomCover B).2.length → calcBeam B rsqrt = Except.error PyErr.typeError) ∧
    (∀ (C : ColumnInput) (rsqrt : ℚ → ℚ), C.valid = true →
      2 ≤ (columnNomCover C).2.length → calcColumn C rsqrt = Except.error PyErr.typeError) ∧
    (∀ (F : FootInput) (rsqrt : ℚ → ℚ) (rpow : ℚ → ℚ → ℚ), F.valid = true →
      2 ≤ (footNomCover F).2.length → calcFoot F rsqrt rpow = Except.error PyErr.typeError) := by
  refine ⟨?_, ?_, ?_, ?_⟩
  · intro P rsqrt hv hlen
    unfold calcPlate
    rw [if_neg (by simp [hv])]
    split
    · next r1 heq => rw [heq] at hlen; simp at hlen
    · rfl
  · intro B rsqrt hv hlen
    unfold calcBeam
    rw [if_neg (by simp [hv])]
    split
    · next r1 heq => rw [heq] at hlen; simp at hlen
    · rfl
  · intro C rsqrt hv hlen
    unfold calcColumn
    rw [if_neg (by simp [hv])]
    split
    · next r1 heq => rw [heq] at hlen; simp at hlen
    · rfl
  · intro F rsqrt rpow hv hlen
    unfold calcFoot
    rw [if_neg (by simp [hv])]
    split
    · next r1 heq => rw [heq] at hlen; simp at hlen
    · rfl

/-- C9: `get_a_coefficient` is partial — every dependant above 500 falls
through all branches and yields `None` — and whenever the punching
verification reaches `round(get_a_coefficient(a_dependant), 2)` with such a
dependant, `Foot.calc_reinforcement` raises a `TypeError`. -/
theorem a_coefficient_partial_typeError :
    (∀ v : ℚ, 500 < v → get_a_coefficient v = none) ∧
    (∀ (F : FootInput) (rsqrt : ℚ → ℚ) (rpow : ℚ → ℚ → ℚ) (r0 : String) (parm sp : ℚ),
      F.valid = true → (footNomCover F).2 = [r0] →
      ¬((footPre F).height < (footPre F).h_min ∨ (footPre F).height < (footPre F).h_cover) →
      footSearch F = (some parm, some sp) →
      parm * (footPre F).length ≠ 0 → sp ≠ 0 →
      footNuEd F ≤ (footPre F).nu_rd_max →
      500 < footADependant F →
      calcFoot F rsqrt rpow = Except.error PyErr.typeError) := by
  refine ⟨get_a_coefficient_gt_500, ?_⟩
  intro F rsqrt rpow r0 parm sp hv hnom hh hsearch hp0 hsp0 hnu hdep
  unfold calcFoot
  rw [if_neg (by simp [hv])]
  split
  · next r1 heq =>
      rw [hnom] at heq
      simp only [List.cons.injEq, and_true] at heq
      subst heq
      rw [if_neg hh, hsearch]
      simp only []
      rw [if_neg (by push_neg; exact ⟨hp0, hsp0⟩)]
      rw [if_neg (not_lt.mpr hnu)]
      rw [get_a_coefficient_gt_500 _ hdep]
  · next hne =>
      exact absurd hnom (hne r0)

/-- C10: for positive bar diameter and cover the leftover width after
placing `add_bars` extra bars is nonpositive, so the tie-break branch of
`get_beam_reinforcement` granting one extra bar is unreachable and the
maximum bar count always equals `min_bars + add_bars - 1`. -/
theorem beam_tie_break_unreachable (d sd w c : ℚ) (hd : 0 < d) (hc : 0 < c) :
    beamWidthLeft d sd w c - beamAddBars d sd w c * (c + d) ≤ 0 ∧
      beamMaxBars d sd w c = 2 + beamAddBars d sd w c - 1 := by
  have hcd : (0 : ℚ) < c + d := by linarith
  have hres := beamResidual_nonpos d sd w c hcd
  refine ⟨hres, ?_⟩
  unfold beamMaxBars
  rw [if_neg]
  intro hcon
  linarith

/-! ## Closed statements: counterexamples, code-bug evaluations, witnesses -/

section ConcreteEvaluations

attribute [local semireducible] Rat.add Rat.mul Rat.inv Rat.sub Rat.ofScientific

/-- C1: on `footC1` the height check fails (`height < h_cover`), and
`Foot.calc_reinforcement` raises a `NameError` — the result dictionary
reads the never-bound local `total_required_area` — instead of returning
the null-filled structured result the claim promises. -/
theorem foot_height_abort_raises_nameError :
    ((footPre footC1).height < (footPre footC1).h_min ∨
      (footPre footC1).height < (footPre footC1).h_cover) ∧
    calcFoot footC1 sq0 pw0 = Except.error PyErr.nameError :=
  ⟨by decide, by decide⟩

/-- C2: on `footC2` the spacing search returns the null pair, and
`Foot.calc_reinforcement` raises a `TypeError` at
`provided_area = provided_area_per_rm * length` (`None * float`) instead of
propagating the nulls into the result. -/
theorem foot_null_search_raises_typeError :
    footSearch footC2 = (none, none) ∧
    calcFoot footC2 sq0 pw0 = Except.error PyErr.typeError :=
  ⟨by decide, by decide⟩

theorem beam_bar_scan_correct_w :
    (0 : ℚ) < 16 / 1000 ∧
    beamScanSpec (1 / 2000) 0 1 (16 / 1000) (8 / 1000) (3 / 10) (3 / 100) :=
  ⟨by decide, beam_bar_scan_correct (1 / 2000) 0 1 (16 / 1000) (8 / 1000) (3 / 10) (3 / 100)
    (by decide)⟩

theorem plate_spacing_sound_w :
    (get_plate_reinforcement (1 / 10000) 0 1 (12 / 1000) (3 / 100)).2 = some (3 / 10) ∧
    ((3 / 10 : ℚ) ∈ axial_spacings ∧ (12 / 1000 : ℚ) + 3 / 100 < 3 / 10 ∧
      get_plate_reinforcement (1 / 10000) 0 1 (12 / 1000) (3 / 100)
        = (some ((1 / (3 / 10)) * (pyPi * ((12 / 1000) / 2) ^ 2)), some (3 / 10)) ∧
      (1 / 10000 : ℚ) ≤ (1 / (3 / 10)) * (pyPi * ((12 / 1000) / 2) ^ 2) ∧
      (0 : ℚ) ≤ (1 / (3 / 10)) * (pyPi * ((12 / 1000) / 2) ^ 2) ∧
      (1 / (3 / 10)) * (pyPi * ((12 / 1000) / 2) ^ 2) ≤ 1) := by
  have hs : (get_plate_reinforcement (1 / 10000) 0 1 (12 / 1000) (3 / 100)).2
      = some (3 / 10) := by decide
  exact ⟨hs, plate_spacing_sound (1 / 10000) 0 1 (12 / 1000) (3 / 100) (3 / 10) hs⟩

theorem column_required_sum_ge_min_w :
    calcColumn colA sq0 = Except.ok colAResult ∧
    (1 / 3125 : ℚ) ≤ 18992 / 8728125 + 1241 / 3325000 := by
  have hcalc : calcColumn colA sq0 = Except.ok colAResult := by decide
  exact ⟨hcalc, column_required_sum_ge_min colA sq0 colAResult
    (18992 / 8728125) (1241 / 3325000) (1 / 3125) hcalc rfl rfl rfl⟩

/-- C6 counterexample: on `colA` the code records `alpha_2_ge = True`
(the direct-solve branch is taken) although the shifted moment
`m_ed_1 = 1645/3872 ≈ 0.4248` does NOT exceed the claimed threshold
`0.371/(1 - delta) + alpha_min = 0.371/(1 - 3/22) + 147/5500 ≈ 0.4563`. -/
theorem column_branch_threshold_cx :
    calcColumn colA sq0 = Except.ok colAResult ∧
    colAResult.alpha_2_ge = some true ∧
    colAResult.m_ed_1 = some (1645 / 3872) ∧
    colAResult.delta = some (3 / 22) ∧
    colAResult.alpha_2_min = some (147 / 5500) ∧
    ¬((0.371 : ℚ) / (1 - 3 / 22) + 147 / 5500 < 1645 / 3872) :=
  ⟨by decide, rfl, rfl, rfl, rfl, by decide⟩

theorem column_branch_threshold_amended_w :
    calcColumn colA sq0 = Except.ok colAResult ∧ (3 / 22 : ℚ) < 1 ∧
    (colAResult.alpha_2_ge = some true ↔
      (0.371 : ℚ) + (147 / 5500) * (1 - 3 / 22) ≤ 1645 / 3872) := by
  have hcalc : calcColumn colA sq0 = Except.ok colAResult := by decide
  exact ⟨hcalc, by decide, column_branch_threshold_amended colA sq0 colAResult
    (3 / 22) (1645 / 3872) (147 / 5500) hcalc rfl (by decide) rfl rfl⟩

/-- C7 counterexample: on `plateC7` the mu check passes and no spacing is
admissible; the result carries the null pair, but its remark list is
exactly the four progress remarks of `plateC7Result` — no remark records
the infeasibility, contrary to the claim. -/
theorem infeasible_layout_remark_cx :
    plateMu plateC7 ≤ 0.374 ∧ plateSearch plateC7 sq0 = (none, none) ∧
    calcPlate plateC7 sq0 = Except.ok plateC7Result :=
  ⟨by decide, by decide, by decide⟩

theorem infeasible_layout_nulls_amended_w :
    calcPlate plateC7 sq0 = Except.ok plateC7Result ∧
    calcBeam beamC7 sq0 = Except.ok beamC7Result := by
  constructor
  · have h := infeasible_layout_nulls_amended.1 plateC7 sq0
      "Recommended nominal concrete cover value is 26 mm." rfl (by decide) (by decide) (by decide)
    exact h.trans (by decide)
  · have h := infeasible_layout_nulls_amended.2 beamC7 sq0
      "Recommended nominal concrete cover value is 26 mm." (417 / 87500) ["Mu value correct."]
      rfl (by decide) (by decide) (by decide)
    exact h.trans (by decide)

theorem nom_cover_two_remarks_typeError_w :
    2 ≤ (plateNomCover plateC8).2.length ∧
    calcPlate plateC8 sq0 = Except.error PyErr.typeError ∧
    2 ≤ (beamNomCover beamC8).2.length ∧
    calcBeam beamC8 sq0 = Except.error PyErr.typeError ∧
    2 ≤ (columnNomCover columnC8).2.length ∧
    calcColumn columnC8 sq0 = Except.error PyErr.typeError ∧
    2 ≤ (footNomCover footC8).2.length ∧
    calcFoot footC8 sq0 pw0 = Except.error PyErr.typeError :=
  ⟨by decide, nom_cover_two_remarks_typeError.1 plateC8 sq0 rfl (by decide),
    by decide, nom_cover_two_remarks_typeError.2.1 beamC8 sq0 rfl (by decide),
    by decide, nom_cover_two_remarks_typeError.2.2.1 columnC8 sq0 rfl (by decide),
    by decide, nom_cover_two_remarks_typeError.2.2.2 footC8 sq0 pw0 rfl (by decide)⟩

theorem a_coefficient_partial_typeError_w :
    get_a_coefficient 501 = none ∧
    footSearch footC9 = (some (176855943800711 / 263882790666240000), some (3 / 10)) ∧
    500 < footADependant footC9 ∧
    calcFoot footC9 sq0 pw0 = Except.error PyErr.typeError := by
  refine ⟨a_coefficient_partial_typeError.1 501 (by decide), by decide, by decide, ?_⟩
  exact a_coefficient_partial_typeError.2 footC9 sq0 pw0
    "Recommended nominal concrete cover value is 50 mm."
    (176855943800711 / 263882790666240000) (3 / 10)
    rfl (by decide) (by decide) (by decide) (by decide) (by decide) (by decide) (by decide)

theorem beam_tie_break_unreachable_w :
    (0 : ℚ) < 16 / 1000 ∧ (0 : ℚ) < 3 / 100 ∧
    beamWidthLeft (16 / 1000) (8 / 1000) (3 / 10) (3 / 100)
        - beamAddBars (16 / 1000) (8 / 1000) (3 / 10) (3 / 100) * (3 / 100 + 16 / 1000) ≤ 0 ∧
    beamMaxBars (16 / 1000) (8 / 1000) (3 / 10) (3 / 100)
        = 2 + beamAddBars (16 / 1000) (8 / 1000) (3 / 10) (3 / 100) - 1 := by
  have h := beam_tie_break_unreachable (16 / 1000) (8 / 1000) (3 / 10) (3 / 100)
    (by decide) (by decide)
  exact ⟨by decide, by decide, h.1, h.2⟩

end ConcreteEvaluations

end ReinfCalc
